import Mathlib

/-!
Shallow embedding of the JobPulse SG search page (SearchPage component).
The component owns the page state (query text, result list, searching flag),
performs a two-call network sequence on submit, and renders either a result
list or a placeholder. Network effects are modelled as an explicit event
trace; the outcomes of the two HTTP calls are supplied by a Net record.
-/

/-- One job posting as consumed by the rendering code (duck-typed payload
from the backend; ats_keywords is optional in the payload). -/
structure Job where
  id : String
  job_title : String
  employer : String
  job_description : String
  salary_range : String
  date_posted : String
  source : String
  ats_keywords : Option (List String)
  employer_website : String
  deriving Repr, DecidableEq

/-- State owned by the SearchPage component: the four useState hooks. -/
structure PageState where
  jobTitle : String
  jobs : List Job
  loading : Bool
  searching : Bool
  deriving Repr, DecidableEq

/-- Observable events emitted while handleSearch runs, in program order:
toasts, state-setter calls, network requests as they are issued, and
console logging. netPost carries the URL and the job_title field of the
JSON body. -/
inductive Ev where
  | toastError (msg : String)
  | toastInfo (msg : String)
  | toastSuccess (msg : String)
  | setSearching (b : Bool)
  | setJobs (js : List Job)
  | netPost (url : String) (body_job_title : String)
  | netGet (url : String)
  | consoleError (e : String)
  deriving Repr, DecidableEq

/-- Outcomes the backend produces for the two calls of one submit:
the POST to /jobs/search and the GET of /jobs. An error value stands for
a non-2xx response, network error or timeout. -/
structure Net where
  postOutcome : Except String Unit
  getOutcome : Except String (List Job)

/-- Characters the JavaScript String.prototype.trim removes: the WhiteSpace
and LineTerminator productions of the ECMAScript grammar. -/
def isJsWhitespace (c : Char) : Bool :=
  c.toNat = 0x9 || c.toNat = 0xA || c.toNat = 0xB || c.toNat = 0xC ||
  c.toNat = 0xD || c.toNat = 0x20 || c.toNat = 0xA0 || c.toNat = 0x1680 ||
  (0x2000 ≤ c.toNat && c.toNat ≤ 0x200A) || c.toNat = 0x2028 ||
  c.toNat = 0x2029 || c.toNat = 0x202F || c.toNat = 0x205F ||
  c.toNat = 0x3000 || c.toNat = 0xFEFF

/-- Embedding of the JavaScript trim call used in the validation check:
drop leading and trailing whitespace. -/
def jsTrim (s : String) : String :=
  String.mk (((s.data.dropWhile isJsWhitespace).reverse.dropWhile
    isJsWhitespace).reverse)

/-- API base: the configured backend base URL plus the fixed /api prefix. -/
def API (backendUrl : String) : String := backendUrl ++ "/api"

/-- Embedding of handleSearch: validation on the trimmed query, then the
awaited POST, then (only if the POST resolved) the awaited GET, with the
catch and finally blocks of the source. Returns the event trace. -/
def handleSearch (backendUrl : String) (net : Net) (s : PageState) : List Ev :=
  if jsTrim s.jobTitle = "" then
    [Ev.toastError "Please enter a job title"]
  else
    Ev.setSearching true ::
    Ev.toastInfo "Searching job portals..." ::
    Ev.netPost (API backendUrl ++ "/jobs/search") s.jobTitle ::
    match net.postOutcome with
    | Except.error e =>
        [Ev.consoleError e, Ev.toastError "Failed to search jobs",
         Ev.setSearching false]
    | Except.ok _ =>
        Ev.netGet (API backendUrl ++ "/jobs") ::
        match net.getOutcome with
        | Except.error e =>
            [Ev.consoleError e, Ev.toastError "Failed to search jobs",
             Ev.setSearching false]
        | Except.ok data =>
            [Ev.setJobs data,
             Ev.toastSuccess ("Found " ++ toString data.length ++ " jobs!"),
             Ev.setSearching false]

/-- Effect of one event on the page state (the state setters). -/
def applyEv (s : PageState) : Ev → PageState
  | Ev.setSearching b => { s with searching := b }
  | Ev.setJobs js => { s with jobs := js }
  | _ => s

/-- Fold an event trace over a starting state. -/
def runTrace (s : PageState) (evs : List Ev) : PageState :=
  evs.foldl applyEv s

/-- State after one full handleSearch run from state s. -/
def runSearch (backendUrl : String) (net : Net) (s : PageState) : PageState :=
  runTrace s (handleSearch backendUrl net s)

/-- View of the submit button: label and disabled flag as rendered from
the current state. -/
structure ButtonView where
  label : String
  disabled : Bool
  deriving Repr, DecidableEq

/-- Rendering of the submit button from state: disabled while searching,
label switches with the searching flag. -/
def renderButton (s : PageState) : ButtonView :=
  { label := if s.searching then "Searching..." else "Search Jobs",
    disabled := s.searching }

/-- Action attached to the card button: window.open with a URL and a
browsing-context target. -/
structure WindowOpen where
  url : String
  target : String
  deriving Repr, DecidableEq

/-- View of one job card as rendered. -/
structure CardView where
  title : String
  employer : String
  sourceLabel : String
  sourceStyle : String
  description : String
  salary : String
  datePosted : String
  keywordTags : List String
  detailAction : WindowOpen
  deriving Repr, DecidableEq

/-- Rendering of one posting into a card, following the JSX: source badge
style branches on the MyCareersFuture source, keyword tags render only when
ats_keywords is present and non-empty and are sliced to the first 5, and
the detail button opens employer_website in a new browsing context. -/
def renderCard (j : Job) : CardView :=
  { title := j.job_title,
    employer := j.employer,
    sourceLabel := j.source,
    sourceStyle := if j.source = "MyCareersFuture" then
        "bg-blue-50 text-blue-700" else "bg-green-50 text-green-700",
    description := j.job_description,
    salary := j.salary_range,
    datePosted := j.date_posted,
    keywordTags := match j.ats_keywords with
      | some ks => if ks.length > 0 then ks.take 5 else []
      | none => [],
    detailAction := { url := j.employer_website, target := "_blank" } }

/-- Body of the page below the search bar: either the result list with its
heading or the placeholder panel. -/
inductive Body where
  | results (heading : String) (cards : List CardView)
  | placeholder (heading : String) (invite : String)
  deriving Repr, DecidableEq

/-- Rendering of the page body: branches solely on jobs.length being
positive, exactly as the JSX conditional does. -/
def renderBody (s : PageState) : Body :=
  if s.jobs.length > 0 then
    Body.results (toString s.jobs.length ++ " Jobs Found")
      (s.jobs.map renderCard)
  else
    Body.placeholder "Start Your Job Search"
      "Enter a job title above to search across multiple job portals"

/-- Embedding of the text field keypress handler: the source runs
handleSearch when the pressed key is Enter, with no other condition. -/
def inputOnKeyPress (backendUrl : String) (net : Net) (s : PageState)
    (key : String) : List Ev :=
  if key = "Enter" then handleSearch backendUrl net s else []

/-- Handler attached to the button onClick attribute: handleSearch itself. -/
def buttonOnClick (backendUrl : String) (net : Net) (s : PageState) :
    List Ev :=
  handleSearch backendUrl net s

/-- Click on the button as the browser dispatches it: a disabled button
fires no click handler. -/
def buttonClickDispatch (backendUrl : String) (net : Net) (s : PageState) :
    List Ev :=
  if (renderButton s).disabled then [] else buttonOnClick backendUrl net s

/-- Recognises the network-request events of a trace. -/
def Ev.isNet : Ev → Bool
  | Ev.netPost _ _ => true
  | Ev.netGet _ => true
  | _ => false

/-- Recognises POST events. -/
def Ev.isPost : Ev → Bool
  | Ev.netPost _ _ => true
  | _ => false

/-- Recognises GET events. -/
def Ev.isGet : Ev → Bool
  | Ev.netGet _ => true
  | _ => false

/-- Network requests of a trace, in the order they are issued. -/
def netEvents (evs : List Ev) : List Ev :=
  evs.filter Ev.isNet

/-- Recognises setSearching events. -/
def Ev.isSetSearching : Ev → Bool
  | Ev.setSearching _ => true
  | _ => false

/-- Net outcome pair where both calls succeed and the GET returns no
postings. -/
def okNet : Net :=
  { postOutcome := Except.ok (), getOutcome := Except.ok [] }

/-- Page state with a valid query and nothing stored yet. -/
def idleState : PageState :=
  { jobTitle := "dev", jobs := [], loading := false, searching := false }

/-- Net outcome pair where the POST fails. -/
def postFailNet : Net :=
  { postOutcome := Except.error "boom", getOutcome := Except.ok [] }

/-- Sample posting used by concrete witnesses. -/
def sampleJob : Job :=
  { id := "1", job_title := "Data Engineer", employer := "Acme",
    job_description := "Builds pipelines", salary_range := "5k-7k",
    date_posted := "2024-01-01", source := "MyCareersFuture",
    ats_keywords := some ["sql", "python", "etl", "spark", "aws", "gcp"],
    employer_website := "https://acme.example/job/1" }

/-- Sample state used by concrete witnesses: one stored posting. -/
def sampleState : PageState :=
  { jobTitle := "dev", jobs := [sampleJob], loading := false,
    searching := false }

/-- Page state in which a search is already in flight. -/
def searchingState : PageState :=
  { jobTitle := "dev", jobs := [], loading := false, searching := true }

/-- Page state whose query has surrounding whitespace. -/
def rawQueryState : PageState :=
  { jobTitle := " dev ", jobs := [], loading := false, searching := false }

/-- Empty-result state that has never searched. -/
def neverSearchedState : PageState :=
  { jobTitle := "", jobs := [], loading := false, searching := false }

/-- Empty-result state after a completed search returned zero postings. -/
def zeroResultState : PageState :=
  { jobTitle := "engineer", jobs := [], loading := false,
    searching := false }

/-- C1: for every valid submit (trimmed query non-empty) the network
requests of the run are exactly a POST to the base URL plus /api at
/jobs/search carrying the query as job_title, followed — only when that
POST resolved successfully — by a GET of /api/jobs; in the sequential
await model the GET is never issued before the POST resolves, so the two
are never in flight together. -/
theorem search_two_sequential_calls (b : String) (net : Net) (s : PageState)
    (h : jsTrim s.jobTitle ≠ "") :
    ((∃ u, net.postOutcome = Except.ok u) ∧
      netEvents (handleSearch b net s) =
        [Ev.netPost (API b ++ "/jobs/search") s.jobTitle,
         Ev.netGet (API b ++ "/jobs")]) ∨
    ((∃ e, net.postOutcome = Except.error e) ∧
      netEvents (handleSearch b net s) =
        [Ev.netPost (API b ++ "/jobs/search") s.jobTitle]) := by
  rcases hp : net.postOutcome with e | u
  · right
    refine ⟨⟨e, rfl⟩, ?_⟩
    simp [netEvents, handleSearch, hp, if_neg h, Ev.isNet]
  · left
    refine ⟨⟨u, rfl⟩, ?_⟩
    rcases hg : net.getOutcome with e | data <;>
      simp [netEvents, handleSearch, hp, hg, if_neg h, Ev.isNet]

/-- Witness for C1 at a concrete input: query dev, both calls succeed,
so the issued requests are exactly the POST followed by the GET. -/
theorem search_two_sequential_calls_witness :
    netEvents (handleSearch "http://b" okNet idleState) =
      [Ev.netPost (API "http://b" ++ "/jobs/search") "dev",
       Ev.netGet (API "http://b" ++ "/jobs")] := by
  rcases search_two_sequential_calls "http://b" okNet idleState
    (by decide) with ⟨_, h2⟩ | ⟨⟨e, he⟩, _⟩
  · exact h2
  · exact absurd he (by simp [okNet])

/-- C2: when both calls succeed the fetched list replaces the stored
result set entirely, and a success toast carrying the count of returned
results is shown, the zero count included. -/
theorem search_success_replaces_results (b : String) (net : Net)
    (s : PageState) (data : List Job) (h : jsTrim s.jobTitle ≠ "")
    (hp : net.postOutcome = Except.ok ())
    (hg : net.getOutcome = Except.ok data) :
    (runSearch b net s).jobs = data ∧
    Ev.toastSuccess ("Found " ++ toString data.length ++ " jobs!") ∈
      handleSearch b net s := by
  constructor
  · simp [runSearch, runTrace, handleSearch, hp, hg, if_neg h, applyEv]
  · simp [handleSearch, hp, hg, if_neg h]

/-- Witness for C2 at a concrete input: both calls succeed, the GET
returns the empty list, so the stored set becomes empty and the success
toast shows a count of zero. -/
theorem search_success_replaces_results_witness :
    (runSearch "http://b" okNet idleState).jobs = [] ∧
    Ev.toastSuccess ("Found " ++ toString (List.length ([] : List Job)) ++
        " jobs!") ∈
      handleSearch "http://b" okNet idleState :=
  search_success_replaces_results "http://b" okNet idleState []
    (by decide) rfl rfl

/-- C3: when either call fails, the stored result set is untouched, the
generic failure toast is shown, the error is logged, and no second POST
or GET is issued (no retry). -/
theorem search_failure_preserves_results (b : String) (net : Net)
    (s : PageState) (h : jsTrim s.jobTitle ≠ "")
    (hf : (∃ e, net.postOutcome = Except.error e) ∨
          (∃ e, net.getOutcome = Except.error e)) :
    (runSearch b net s).jobs = s.jobs ∧
    Ev.toastError "Failed to search jobs" ∈ handleSearch b net s ∧
    (∃ e, Ev.consoleError e ∈ handleSearch b net s) ∧
    (handleSearch b net s).countP Ev.isPost ≤ 1 ∧
    (handleSearch b net s).countP Ev.isGet ≤ 1 := by
  rcases hp : net.postOutcome with e | u
  · refine ⟨?_, ?_, ⟨e, ?_⟩, ?_, ?_⟩ <;>
      simp [runSearch, runTrace, handleSearch, hp, if_neg h, applyEv,
        Ev.isPost, Ev.isGet]
  · have hg : ∃ e, net.getOutcome = Except.error e := by
      rcases hf with ⟨e, he⟩ | hgood
      · rw [hp] at he; exact absurd he (by simp)
      · exact hgood
    rcases hg with ⟨e, hg⟩
    refine ⟨?_, ?_, ⟨e, ?_⟩, ?_, ?_⟩ <;>
      simp [runSearch, runTrace, handleSearch, hp, hg, if_neg h, applyEv,
        Ev.isPost, Ev.isGet]

/-- Witness for C3 at a concrete input: the POST fails, the stored list
keeps its one posting. -/
theorem search_failure_preserves_results_witness :
    (runSearch "http://b" postFailNet sampleState).jobs =
      sampleState.jobs ∧
    Ev.toastError "Failed to search jobs" ∈
      handleSearch "http://b" postFailNet sampleState :=
  ⟨(search_failure_preserves_results "http://b" postFailNet sampleState
      (by decide) (Or.inl ⟨"boom", rfl⟩)).1,
   (search_failure_preserves_results "http://b" postFailNet sampleState
      (by decide) (Or.inl ⟨"boom", rfl⟩)).2.1⟩

/-- C4: a submit whose trimmed query is empty produces only the
validation toast: the whole trace is that one toast, no network event
occurs, and the state (result set and searching flag included) is
unchanged. -/
theorem empty_query_validates (b : String) (net : Net) (s : PageState)
    (h : jsTrim s.jobTitle = "") :
    handleSearch b net s = [Ev.toastError "Please enter a job title"] ∧
    netEvents (handleSearch b net s) = [] ∧
    runSearch b net s = s := by
  refine ⟨?_, ?_, ?_⟩ <;>
    simp [handleSearch, h, netEvents, runSearch, runTrace, applyEv, Ev.isNet]

/-- Witness for C4 at a concrete input: a whitespace-only query. -/
theorem empty_query_validates_witness :
    handleSearch "http://b" okNet
        { jobTitle := "   ", jobs := [], loading := false,
          searching := false } =
      [Ev.toastError "Please enter a job title"] ∧
    netEvents (handleSearch "http://b" okNet
        { jobTitle := "   ", jobs := [], loading := false,
          searching := false }) = [] ∧
    runSearch "http://b" okNet
        { jobTitle := "   ", jobs := [], loading := false,
          searching := false } =
      { jobTitle := "   ", jobs := [], loading := false,
        searching := false } :=
  empty_query_validates "http://b" okNet
    { jobTitle := "   ", jobs := [], loading := false, searching := false }
    (by decide)

/-- C5: every valid submit starts by setting the searching flag true and
ends by setting it false, with no other change of the flag in between,
on the success path and on both failure paths alike, so the run ends with
searching false; and the rendered submit control is disabled exactly when
the flag is true. -/
theorem searching_flag_lifecycle (b : String) (net : Net) (s : PageState)
    (h : jsTrim s.jobTitle ≠ "") :
    (∃ mid, handleSearch b net s =
        Ev.setSearching true :: mid ++ [Ev.setSearching false] ∧
        ∀ e ∈ mid, e.isSetSearching = false) ∧
    (runSearch b net s).searching = false ∧
    ∀ t : PageState, (renderButton t).disabled = true ↔ t.searching = true := by
  refine ⟨?_, ?_, ?_⟩
  · rcases hp : net.postOutcome with e | u
    · refine ⟨[Ev.toastInfo "Searching job portals...",
        Ev.netPost (API b ++ "/jobs/search") s.jobTitle,
        Ev.consoleError e, Ev.toastError "Failed to search jobs"], ?_, ?_⟩
      · simp [handleSearch, hp, if_neg h]
      · simp [Ev.isSetSearching]
    · rcases hg : net.getOutcome with e | data
      · refine ⟨[Ev.toastInfo "Searching job portals...",
          Ev.netPost (API b ++ "/jobs/search") s.jobTitle,
          Ev.netGet (API b ++ "/jobs"),
          Ev.consoleError e, Ev.toastError "Failed to search jobs"], ?_, ?_⟩
        · simp [handleSearch, hp, hg, if_neg h]
        · simp [Ev.isSetSearching]
      · refine ⟨[Ev.toastInfo "Searching job portals...",
          Ev.netPost (API b ++ "/jobs/search") s.jobTitle,
          Ev.netGet (API b ++ "/jobs"), Ev.setJobs data,
          Ev.toastSuccess ("Found " ++ toString data.length ++ " jobs!")],
          ?_, ?_⟩
        · simp [handleSearch, hp, hg, if_neg h]
        · simp [Ev.isSetSearching]
  · rcases hp : net.postOutcome with e | u
    · simp [runSearch, runTrace, handleSearch, hp, if_neg h, applyEv]
    · rcases hg : net.getOutcome with e | data <;>
        simp [runSearch, runTrace, handleSearch, hp, hg, if_neg h, applyEv]
  · intro t
    simp [renderButton]

/-- Witness for C5 at a concrete input: query dev, POST fails; the run
ends with searching false and the disabled flag mirrors the searching
flag of a concrete state. -/
theorem searching_flag_lifecycle_witness :
    (runSearch "http://b" postFailNet idleState).searching = false ∧
    ((renderButton searchingState).disabled = true ↔
      searchingState.searching = true) :=
  ⟨(searching_flag_lifecycle "http://b" postFailNet idleState
      (by decide)).2.1,
   (searching_flag_lifecycle "http://b" postFailNet idleState
      (by decide)).2.2 searchingState⟩

/-- C6: a non-empty result set of N postings renders a heading carrying
the count N and exactly one card per posting; each card shows the
posting title, employer, description, salary range, posting date and
source label, carries at most 5 keyword tags (the first five of the
present non-empty keyword list), and its action opens the external
detail URL in a new browsing context. -/
theorem results_render (s : PageState) (h : s.jobs ≠ []) :
    renderBody s = Body.results (toString s.jobs.length ++ " Jobs Found")
      (s.jobs.map renderCard) ∧
    (s.jobs.map renderCard).length = s.jobs.length ∧
    ∀ j ∈ s.jobs,
      (renderCard j).title = j.job_title ∧
      (renderCard j).employer = j.employer ∧
      (renderCard j).description = j.job_description ∧
      (renderCard j).salary = j.salary_range ∧
      (renderCard j).datePosted = j.date_posted ∧
      (renderCard j).sourceLabel = j.source ∧
      (renderCard j).keywordTags.length ≤ 5 ∧
      (∀ ks, j.ats_keywords = some ks → ks ≠ [] →
        (renderCard j).keywordTags = ks.take 5) ∧
      (renderCard j).detailAction =
        { url := j.employer_website, target := "_blank" } := by
  refine ⟨?_, by simp, ?_⟩
  · unfold renderBody
    rw [if_pos (List.length_pos.mpr h)]
  · intro j hj
    refine ⟨rfl, rfl, rfl, rfl, rfl, rfl, ?_, ?_, rfl⟩
    · rcases hks : j.ats_keywords with _ | ks
      · simp [renderCard, hks]
      · by_cases hl : ks.length > 0
        · simp [renderCard, hks, hl, List.length_take]
        · simp [renderCard, hks, hl]
    · intro ks hks hne
      have hl : ks.length > 0 := List.length_pos.mpr hne
      simp [renderCard, hks, hl]

/-- Witness for C6 at a concrete input: one stored posting with six
keywords renders one card, its tags are the first five keywords, and the
detail action targets a new browsing context. -/
theorem results_render_witness :
    renderBody sampleState =
      Body.results (toString sampleState.jobs.length ++ " Jobs Found")
        (sampleState.jobs.map renderCard) ∧
    (renderCard sampleJob).keywordTags =
      ["sql", "python", "etl", "spark", "aws"] ∧
    (renderCard sampleJob).detailAction =
      { url := sampleJob.employer_website, target := "_blank" } := by
  have h := results_render sampleState (by decide)
  have hcard := h.2.2 sampleJob (by simp [sampleState])
  refine ⟨h.1, ?_, hcard.2.2.2.2.2.2.2.2⟩
  rw [hcard.2.2.2.2.2.2.2.1 ["sql", "python", "etl", "spark", "aws", "gcp"]
    rfl (by decide)]
  rfl

/-- C7: an empty result set — never-searched or a zero-result search
alike — renders the one placeholder panel; the body render branches only
on the result-set length, so any two empty-result states render the
identical body. -/
theorem empty_render_placeholder (s t : PageState) (hs : s.jobs = [])
    (ht : t.jobs = []) :
    renderBody s = Body.placeholder "Start Your Job Search"
      "Enter a job title above to search across multiple job portals" ∧
    renderBody s = renderBody t := by
  have hr : ∀ u : PageState, u.jobs = [] →
      renderBody u = Body.placeholder "Start Your Job Search"
        "Enter a job title above to search across multiple job portals" := by
    intro u hu
    simp [renderBody, hu]
  exact ⟨hr s hs, (hr s hs).trans (hr t ht).symm⟩

/-- Witness for C7 at concrete inputs: the never-searched state and a
zero-result state render the same placeholder body. -/
theorem empty_render_placeholder_witness :
    renderBody neverSearchedState =
      Body.placeholder "Start Your Job Search"
        "Enter a job title above to search across multiple job portals" ∧
    renderBody neverSearchedState = renderBody zeroResultState :=
  empty_render_placeholder neverSearchedState zeroResultState rfl rfl

/-- C8: the Enter keypress in the text field and the button click run the
identical handleSearch action, and handleSearch itself carries no guard
on the searching flag — its trace is the same whatever that flag is —
so the only double-submit protection is the disabled button. -/
theorem submit_triggers_identical (b : String) (net : Net) (s : PageState) :
    inputOnKeyPress b net s "Enter" = buttonOnClick b net s ∧
    ∀ b2 : Bool, handleSearch b net { s with searching := b2 } =
      handleSearch b net s := by
  constructor
  · simp [inputOnKeyPress, buttonOnClick]
  · intro b2
    rfl

/-- C9: every POST issued by handleSearch carries as job_title the raw,
untrimmed query string exactly as stored; trimming is used only by the
validation check. -/
theorem post_body_raw_query (b : String) (net : Net) (s : PageState)
    (h : jsTrim s.jobTitle ≠ "") :
    Ev.netPost (API b ++ "/jobs/search") s.jobTitle ∈ handleSearch b net s ∧
    ∀ url body, Ev.netPost url body ∈ handleSearch b net s →
      body = s.jobTitle := by
  constructor
  · rcases hp : net.postOutcome with e | u
    · simp [handleSearch, hp, if_neg h]
    · rcases hg : net.getOutcome with e | data <;>
        simp [handleSearch, hp, hg, if_neg h]
  · intro url body hmem
    rcases hp : net.postOutcome with e | u
    · simp [handleSearch, hp, if_neg h] at hmem
      exact hmem.2
    · rcases hg : net.getOutcome with e | data <;>
        simp [handleSearch, hp, hg, if_neg h] at hmem <;>
        exact hmem.2

/-- Witness for C9 at a concrete input: the query has surrounding
whitespace and the POST body keeps it. -/
theorem post_body_raw_query_witness :
    Ev.netPost (API "http://b" ++ "/jobs/search") " dev " ∈
      handleSearch "http://b" okNet rawQueryState :=
  (post_body_raw_query "http://b" okNet rawQueryState (by decide)).1

/-- C10: while the searching flag is true, Enter in the text field still
runs handleSearch and (query valid) issues the POST that starts a new
two-call sequence, while the disabled button dispatches nothing — the
guard covers only the click path. -/
theorem enter_bypasses_disabled_guard (b : String) (net : Net)
    (s : PageState) (hs : s.searching = true) (h : jsTrim s.jobTitle ≠ "") :
    inputOnKeyPress b net s "Enter" = handleSearch b net s ∧
    buttonClickDispatch b net s = [] ∧
    Ev.netPost (API b ++ "/jobs/search") s.jobTitle ∈
      inputOnKeyPress b net s "Enter" := by
  refine ⟨by simp [inputOnKeyPress], ?_, ?_⟩
  · simp [buttonClickDispatch, renderButton, hs]
  · simp only [inputOnKeyPress, if_pos rfl]
    rcases hp : net.postOutcome with e | u
    · simp [handleSearch, hp, if_neg h]
    · rcases hg : net.getOutcome with e | data <;>
        simp [handleSearch, hp, hg, if_neg h]

/-- Witness for C10 at a concrete input: a search is in flight, Enter
still issues the POST while the click path is inert. -/
theorem enter_bypasses_disabled_guard_witness :
    inputOnKeyPress "http://b" okNet searchingState "Enter" =
      handleSearch "http://b" okNet searchingState ∧
    buttonClickDispatch "http://b" okNet searchingState = [] ∧
    Ev.netPost (API "http://b" ++ "/jobs/search") "dev" ∈
      inputOnKeyPress "http://b" okNet searchingState "Enter" :=
  enter_bypasses_disabled_guard "http://b" okNet searchingState rfl
    (by decide)
